import Mathlib

/-!
Verification of the chainlink `core/eth/types.go` data types and of the
`offchainreporting` OCR contract tracker (`OCRContractTracker`).

The Go code is shallowly embedded:
  * byte values are `Nat`s below 256, byte slices are `List Nat`;
  * 32-byte hashes and 20-byte addresses are modelled as opaque `Nat` ids
    (no claim depends on their width, only on equality);
  * Go's machine-integer conversions are made explicit
    (`goInt64OfUInt64` performs the two's-complement wrap of
    `int64(x)` / `int(x)` applied to an unsigned 64-bit value);
  * a Go function that can panic is modelled with an `Option` result,
    `none` standing for the panic;
  * fallible Go functions return `Except GoError` (errors are modelled as
    strings; the `fmt` interpolations of the source messages are elided);
  * external collaborators (the ABI decode layer, the RPC client's
    `FilterLogs`, the keccak hash, `confighelper.ContractConfigFromConfigSetEvent`)
    are taken as function parameters, matching the spec's "treated as a pure
    decode function / opaque service" framing.
-/

/-- Go `error` values, modelled by their message. -/
abbrev GoError := String

/-- `common.Address`, modelled opaquely. -/
abbrev Address := Nat

/-- `common.Hash` (32-byte hash), modelled opaquely. -/
abbrev Hash := Nat

/-- Two's-complement reinterpretation of an unsigned 64-bit value as a signed
64-bit value: the semantics of Go's `int64(u)` / `int(u)` for `u : uint64`
(`uint`).  Values below `2^63` are unchanged; larger values wrap negative. -/
def goInt64OfUInt64 (n : Nat) : Int :=
  let m := n % 18446744073709551616
  if m < 9223372036854775808 then (m : Int) else (m : Int) - 18446744073709551616

/-- `UntrustedBytes` (`core/eth/types.go`): chain-submitted opaque payload
bytes. -/
abbrev UntrustedBytes := List Nat

/-- `Log` (`core/eth/types.go`): a contract log event.  Consensus fields:
`address`, `topics`, `data`.  Derived fields: `blockNumber` … `index`.
`removed` is true when the log was reverted by a chain reorganisation. -/
structure Log where
  address : Address
  topics : List Hash
  data : UntrustedBytes
  blockNumber : Nat
  txHash : Hash
  txIndex : Nat
  blockHash : Hash
  index : Nat
  removed : Bool
deriving DecidableEq

/-- `Log.GetTopic(idx uint)`: the guard compares `len(log.Topics) <= int(idx)`
after converting the unsigned index to a signed `int`; when the guard does not
fire, `log.Topics[idx]` is indexed with the original unsigned value, which
panics (`none`) whenever `idx` is still out of range (possible because the
signed conversion wraps for `idx ≥ 2^63`). -/
def Log.GetTopic (log : Log) (idx : Nat) : Option (Except GoError Hash) :=
  if (log.topics.length : Int) ≤ goInt64OfUInt64 idx then
    some (.error "Log: unable to get topic")
  else if h : idx < log.topics.length then
    some (.ok (log.topics.get ⟨idx, h⟩))
  else
    none

/-- `ChainlinkFulfilledTopic = utils.MustHash("ChainlinkFulfilled(bytes32)")`,
modelled as an opaque distinct hash constant. -/
def ChainlinkFulfilledTopic : Hash := 101

/-- `TxReceipt` (`core/eth/types.go`). -/
structure TxReceipt where
  blockNumber : Option Nat
  blockHash : Option Hash
  hash : Hash
  logs : List Log
deriving DecidableEq

/-- The loop body of `TxReceipt.FulfilledRunLog`: for each log it evaluates
`log.Topics[0]`, which panics (`none`) when the topic list is empty. -/
def fulfilledRunLogLoop : List Log → Option Bool
  | [] => some false
  | lg :: rest =>
    match lg.topics with
    | [] => none
    | topic0 :: _ =>
      if topic0 = ChainlinkFulfilledTopic then some true else fulfilledRunLogLoop rest

/-- `TxReceipt.FulfilledRunLog`: true iff some log's first topic is the
fulfilled-run topic; indexes `Topics[0]` without a bounds check. -/
def TxReceipt.FulfilledRunLog (txr : TxReceipt) : Option Bool :=
  fulfilledRunLogLoop txr.logs

/-- `FunctionSelector`: a `[4]byte` array. -/
abbrev FunctionSelector := { l : List Nat // l.length = 4 }

/-- The Go zero value of `FunctionSelector`. -/
def fsZero : FunctionSelector := ⟨[0, 0, 0, 0], rfl⟩

/-- `FunctionSelector.SetBytes(b)`: `copy(f[:], b[:FunctionSelectorLength])`.
The reslice `b[:4]` panics (`none`) when `b` holds fewer than 4 bytes (the
byte slices reaching it are fresh allocations, so capacity equals length);
otherwise the receiver is fully overwritten with the first 4 bytes. -/
def FunctionSelector.SetBytes (_f : FunctionSelector) (b : List Nat) :
    Option FunctionSelector :=
  if h : b.length < 4 then none
  else some ⟨b.take 4, by simp [List.length_take]; omega⟩

/-- `BytesToFunctionSelector(b)`: `SetBytes` on a zero selector. -/
def BytesToFunctionSelector (b : List Nat) : Option FunctionSelector :=
  fsZero.SetBytes b

/-- `utils.HasHexPrefix` / geth `has0xPrefix` (external to `src/`, modelled
from the spec: "if `s` has a recognized hex prefix"): the string starts with
`0x` or `0X`.  Strings are modelled as `List Char`. -/
def hasHexPfx : List Char → Bool
  | c0 :: c1 :: _ => c0 = '0' && (c1 = 'x' || c1 = 'X')
  | _ => false

/-- Value of one hex digit, `none` for a non-hex character. -/
def hexCharVal (c : Char) : Option Nat :=
  if '0' ≤ c ∧ c ≤ '9' then some (c.toNat - '0'.toNat)
  else if 'a' ≤ c ∧ c ≤ 'f' then some (c.toNat - 'a'.toNat + 10)
  else if 'A' ≤ c ∧ c ≤ 'F' then some (c.toNat - 'A'.toNat + 10)
  else none

/-- `hex.DecodeString` semantics as used by `common.Hex2Bytes`: decode hex
digit pairs, stopping (and keeping the bytes decoded so far) at the first
invalid pair; the returned error is discarded by `Hex2Bytes`. -/
def hexPairsToBytes : List Char → List Nat
  | c1 :: c2 :: rest =>
    match hexCharVal c1, hexCharVal c2 with
    | some hi, some lo => (16 * hi + lo) :: hexPairsToBytes rest
    | _, _ => []
  | _ => []

/-- `common.FromHex`: strip a `0x`/`0X` prefix, left-pad to even length with
`'0'`, then decode. -/
def fromHex (s : List Char) : List Nat :=
  let s1 := if hasHexPfx s then s.drop 2 else s
  let s2 := if s1.length % 2 = 1 then '0' :: s1 else s1
  hexPairsToBytes s2

/-- `HexToFunctionSelector(s)`: `BytesToFunctionSelector(common.FromHex(s))`;
inherits the short-input panic (`none`). -/
def HexToFunctionSelector (s : List Char) : Option FunctionSelector :=
  BytesToFunctionSelector (fromHex s)

/-- The `hexRegexp = "^[0-9a-fA-F]*$"` full match. -/
def isHexDigits (cs : List Char) : Bool :=
  cs.all fun c => (hexCharVal c).isSome

/-- `unmarshalFromString(s, f)` (`core/eth/types.go`): for a `0x`-prefixed
string, validate the hex digits, decode, and require exactly 4 bytes;
otherwise hash the signature string (`keccak`, an external collaborator taken
as a parameter) and take its first 4 bytes — the reslice `bytes[0:4]` panics
(`none`) if the hash yields fewer than 4 bytes.  The receiver is a pointer, so
the updated selector is returned. -/
def unmarshalFromString (keccak : List Char → Except GoError (List Nat))
    (s : List Char) (f : FunctionSelector) : Option (Except GoError FunctionSelector) :=
  if hasHexPfx s then
    if !isHexDigits (s.drop 2) then
      some (.error "function selector must be 0x-hex encoded")
    else
      let bytes := fromHex s
      if bytes.length ≠ 4 then
        some (.error "Function ID must be 4 bytes in length")
      else
        match f.SetBytes bytes with
        | none => none
        | some f1 => some (.ok f1)
  else
    match keccak s with
    | .error e => some (.error e)
    | .ok bytes =>
      if bytes.length < 4 then none
      else
        match f.SetBytes (bytes.take 4) with
        | none => none
        | some f1 => some (.ok f1)

/-- A `database/sql/driver` value handed to `Scan`: either a `[]byte` or any
other dynamic type (which the type assertion rejects). -/
inductive DBValue where
  | bytes (b : List Nat)
  | nonBytes
deriving DecidableEq

/-- `FunctionSelector.Value()`: the selector serialized for database storage,
`f.Bytes()` (the returned error is always nil). -/
def FunctionSelector.Value (f : FunctionSelector) : List Nat := f.val

/-- The body of `FunctionSelector.Scan(value)`, acting on the local copy `f`
of the receiver: assert `[]byte`, require length 4, and `copy(f[:], temp)`
(which fully overwrites the 4 bytes). -/
def FunctionSelector.scanBody (_f : FunctionSelector) (value : DBValue) :
    Except GoError FunctionSelector :=
  match value with
  | .nonBytes => .error "unable to convent value to FunctionSelector"
  | .bytes temp =>
    if h : temp.length = 4 then .ok ⟨temp, h⟩
    else .error "function selector should have length 4"

/-- `FunctionSelector.Scan(value)` as the caller observes it.  `Scan` is
declared on a VALUE receiver (`func (f FunctionSelector) Scan(...)`): the body
writes into a copy of the receiver that is discarded on return, so the caller
receives only the error, and the caller's selector (second component) is the
unchanged `f`. -/
def FunctionSelector.Scan (f : FunctionSelector) (value : DBValue) :
    Except GoError Unit × FunctionSelector :=
  ((f.scanBody value).map fun _ => (), f)

/-- `UntrustedBytes.SafeByteSlice(start, end)`: out-of-range or negative or
inverted bounds yield a nil slice and an error; otherwise `ary[start:end]`. -/
def UntrustedBytes.SafeByteSlice (ary : UntrustedBytes) (start end_ : Int) :
    List Nat × Option GoError :=
  if end_ > (ary.length : Int) ∨ start > end_ ∨ start < 0 ∨ end_ < 0 then
    ([], some "out of bounds slice access")
  else
    ((ary.drop start.toNat).take (end_ - start).toNat, none)

/-- `getEventTopic("ConfigSet")`: the configuration-changed event topic,
computed at startup from the contract ABI; modelled as an opaque distinct
hash constant. -/
def OCRContractConfigSet : Hash := 102

/-- `getEventTopic("RoundRequested")`: the round-requested event topic,
modelled as an opaque distinct hash constant. -/
def OCRContractLatestRoundRequested : Hash := 103

/-- `offchainaggregator.OffchainAggregatorRoundRequested` (the decoded
round-requested event): `Epoch` is a `uint32` and `Round` a `uint8`; only
equality and `≥` on their values are used, so they are modelled as `Nat`s. -/
structure RoundRequested where
  configDigest : Hash
  epoch : Nat
  round : Nat
deriving DecidableEq

/-- `offchainaggregator.OffchainAggregatorConfigSet` (the decoded
configuration-changed event): the decoded payload is opaque here; `raw` is the
raw log, reassigned by `HandleLog` before conversion. -/
structure ConfigSet where
  payload : Nat
  raw : Log
deriving DecidableEq

/-- `ocrtypes.ContractConfig`, the domain configuration representation
produced by `confighelper.ContractConfigFromConfigSetEvent`; opaque. -/
abbrev ContractConfig := Nat

/-- The tracker state that `HandleLog` reads and writes: the tracked contract
address, the guarded `latestRoundRequested` state, and the mailbox, modelled
by the list of configs delivered to it (`configsMB.Deliver` appends). -/
structure OCRContractTracker where
  contractAddress : Address
  latestRoundRequested : RoundRequested
  configsMB : List ContractConfig

/-- A `log.Broadcast` as `HandleLog` consumes it: the raw log plus the result
of the `WasAlreadyConsumed` query. -/
structure Broadcast where
  rawLog : Log
  wasAlreadyConsumed : Except GoError Bool

/-- The observable outcome of one `HandleLog` call: the tracker state after
the call, and whether `MarkConsumed` was invoked on the broadcast. -/
structure HandleLogResult where
  state : OCRContractTracker
  markedConsumed : Bool

/-- `OCRContractTracker.HandleLog(lb, err)`.  The ABI decode layer
(`contractFilterer.ParseConfigSet` / `ParseRoundRequested`) and
`confighelper.ContractConfigFromConfigSetEvent` are external collaborators
passed as pure functions.  Control flow follows the source: prior error →
return; already-consumed (or consumed-query error) → return; no topics →
return; dispatch on `topics[0]` with address check, decode, and mailbox
delivery (ConfigSet) or guarded monotonic round-state update (RoundRequested);
unrecognized topics fall through; finally `MarkConsumed`. -/
def OCRContractTracker.HandleLog (t : OCRContractTracker)
    (parseConfigSet : Log → Except GoError ConfigSet)
    (parseRoundRequested : Log → Except GoError RoundRequested)
    (configFromEvent : ConfigSet → ContractConfig)
    (lb : Broadcast) (err : Option GoError) : HandleLogResult :=
  if err.isSome then ⟨t, false⟩
  else
    match lb.wasAlreadyConsumed with
    | .error _ => ⟨t, false⟩
    | .ok true => ⟨t, false⟩
    | .ok false =>
      match lb.rawLog.topics with
      | [] => ⟨t, false⟩
      | topic0 :: _ =>
        if topic0 = OCRContractConfigSet then
          if lb.rawLog.address ≠ t.contractAddress then ⟨t, false⟩
          else
            match parseConfigSet lb.rawLog with
            | .error _ => ⟨t, false⟩
            | .ok configSet0 =>
              let configSet := { configSet0 with raw := lb.rawLog }
              let cc := configFromEvent configSet
              ⟨{ t with configsMB := t.configsMB ++ [cc] }, true⟩
        else if topic0 = OCRContractLatestRoundRequested then
          if lb.rawLog.address ≠ t.contractAddress then ⟨t, false⟩
          else
            match parseRoundRequested lb.rawLog with
            | .error _ => ⟨t, false⟩
            | .ok rr =>
              if rr.round ≥ t.latestRoundRequested.round ∧
                  rr.epoch ≥ t.latestRoundRequested.epoch then
                ⟨{ t with latestRoundRequested := rr }, true⟩
              else ⟨t, true⟩
        else ⟨t, true⟩

/-- `ethereum.FilterQuery` as built by `ConfigFromLogs`: block bounds are
`big.Int`s produced from `int64` values. -/
structure FilterQuery where
  fromBlock : Int
  toBlock : Int
  addresses : List Address
  topics : List (List Hash)
deriving DecidableEq

/-- The filter query literal `q` of `ConfigFromLogs`: both block bounds are
`big.NewInt(int64(changedInBlock))` — the `uint64` block number passes through
a signed 64-bit conversion. -/
def makeConfigFilterQuery (contractAddress : Address) (changedInBlock : Nat) :
    FilterQuery :=
  { fromBlock := goInt64OfUInt64 changedInBlock
    toBlock := goInt64OfUInt64 changedInBlock
    addresses := [contractAddress]
    topics := [[OCRContractConfigSet]] }

/-- `OCRContractTracker.ConfigFromLogs(ctx, changedInBlock)`: filter the chain
for ConfigSet logs in `[changedInBlock, changedInBlock]`; an empty result is
an error; otherwise decode the last (most recent) log, reassign its raw log,
and require its address to match the tracked contract.  The RPC client
(`FilterLogs`) and decode layer are parameters. -/
def ConfigFromLogs (filterLogs : FilterQuery → Except GoError (List Log))
    (parseConfigSet : Log → Except GoError ConfigSet)
    (configFromEvent : ConfigSet → ContractConfig)
    (contractAddress : Address) (changedInBlock : Nat) :
    Except GoError ContractConfig :=
  match filterLogs (makeConfigFilterQuery contractAddress changedInBlock) with
  | .error e => .error e
  | .ok logs =>
    if hne : logs = [] then
      .error "ConfigFromLogs: OCRContract has no logs"
    else
      match parseConfigSet (logs.getLast hne) with
      | .error e => .error ("ConfigFromLogs failed to ParseConfigSet: " ++ e)
      | .ok latest0 =>
        let latest := { latest0 with raw := logs.getLast hne }
        if latest.raw.address ≠ contractAddress then
          .error "log address does not match configured contract address"
        else
          .ok (configFromEvent latest)

/-- A topics buffer (the backing array of a `[]common.Hash`). -/
abbrev TopicBuf := List Hash

/-- A data buffer (the backing array of a `[]byte`). -/
abbrev DataBuf := List Nat

/-- `Log` with its two slice fields represented by references into an explicit
heap, so that the aliasing behaviour of `Log.Copy` (which buffers `make`
allocates and `copy` fills) can be stated: `topics`/`data` hold the id of
their backing buffer, `none` standing for a nil slice. -/
structure LogRef where
  address : Address
  topics : Option Nat
  data : Option Nat
  blockNumber : Nat
  txHash : Hash
  txIndex : Nat
  blockHash : Hash
  index : Nat
  removed : Bool

/-- The heap of slice backing buffers: contents of every topic and data
buffer, and the next fresh id (every allocated buffer has an id below
`next`). -/
structure Heap where
  topicMem : Nat → TopicBuf
  dataMem : Nat → DataBuf
  next : Nat

/-- `make([]common.Hash, n)` + `copy`: allocate a fresh topics buffer holding
`buf`. -/
def Heap.allocTopics (h : Heap) (buf : TopicBuf) : Nat × Heap :=
  (h.next,
   { h with
     topicMem := fun i => if i = h.next then buf else h.topicMem i
     next := h.next + 1 })

/-- `make([]byte, n)` + `copy`: allocate a fresh data buffer holding `buf`. -/
def Heap.allocData (h : Heap) (buf : DataBuf) : Nat × Heap :=
  (h.next,
   { h with
     dataMem := fun i => if i = h.next then buf else h.dataMem i
     next := h.next + 1 })

/-- Overwrite the topics buffer `r` (a mutation through some slice that
references it). -/
def Heap.writeTopics (h : Heap) (r : Nat) (buf : TopicBuf) : Heap :=
  { h with topicMem := fun i => if i = r then buf else h.topicMem i }

/-- Overwrite the data buffer `r`. -/
def Heap.writeData (h : Heap) (r : Nat) (buf : DataBuf) : Heap :=
  { h with dataMem := fun i => if i = r then buf else h.dataMem i }

/-- The topic sequence a `LogRef` denotes (a nil slice reads as empty). -/
def LogRef.derefTopics (lg : LogRef) (h : Heap) : TopicBuf :=
  match lg.topics with
  | none => []
  | some r => h.topicMem r

/-- The payload a `LogRef` denotes. -/
def LogRef.derefData (lg : LogRef) (h : Heap) : DataBuf :=
  match lg.data with
  | none => []
  | some r => h.dataMem r

/-- A `LogRef` is well-formed in a heap when its buffer references are
allocated (below `next`). -/
def LogRef.wfIn (lg : LogRef) (h : Heap) : Bool :=
  (match lg.topics with | none => true | some r => r < h.next) &&
  (match lg.data with | none => true | some r => r < h.next)

/-- `Log.Copy()`: copy the scalar fields; when `Topics` is non-nil, allocate a
fresh buffer of the same length and copy the contents; then likewise for
`Data`. -/
def LogRef.Copy (lg : LogRef) (h : Heap) : LogRef × Heap :=
  match lg.topics with
  | none =>
    match lg.data with
    | none => ({ lg with topics := none, data := none }, h)
    | some rd =>
      let a := h.allocData (h.dataMem rd)
      ({ lg with topics := none, data := some a.1 }, a.2)
  | some rt =>
    let a := h.allocTopics (h.topicMem rt)
    match lg.data with
    | none => ({ lg with topics := some a.1, data := none }, a.2)
    | some rd =>
      let b := a.2.allocData (a.2.dataMem rd)
      ({ lg with topics := some a.1, data := some b.1 }, b.2)

/-! ## Test fixtures -/

/-- A concrete selector 0x01020304. -/
def fs1234 : FunctionSelector := ⟨[1, 2, 3, 4], rfl⟩

/-- A log with the given address, topics and removed flag (derived fields and
payload zeroed). -/
def logWith (addr : Address) (topics : List Hash) (removed : Bool) : Log :=
  { address := addr, topics := topics, data := [], blockNumber := 0, txHash := 0
    txIndex := 0, blockHash := 0, index := 0, removed := removed }

/-! ## Claims -/

/-- C2 (code_bug): `Value` stores the selector as its raw 4 bytes and
`scanBody` (the body of `Scan`) validates the length and rebuilds the
selector, but `Scan` is declared on a value receiver, so the caller's
selector is unchanged by the call: `Scan(Value(x))` leaves the receiver at
its old value instead of yielding `x`.  The non-4-byte half of the claim does
hold: the caller sees `.ok` exactly when the stored value has length 4. -/
theorem c2_scan_value_receiver_discards_result :
    (FunctionSelector.Scan fsZero (DBValue.bytes (FunctionSelector.Value fs1234))).2 = fsZero
  ∧ (FunctionSelector.Scan fsZero (DBValue.bytes (FunctionSelector.Value fs1234))).1 = .ok ()
  ∧ (decide (fsZero = fs1234)) = false
  ∧ FunctionSelector.scanBody fsZero (DBValue.bytes (FunctionSelector.Value fs1234)) = .ok fs1234
  ∧ (∀ (f : FunctionSelector) (b : List Nat),
      (FunctionSelector.Scan f (DBValue.bytes b)).1 = .ok () ↔ b.length = 4) := by
  refine ⟨rfl, rfl, by decide, rfl, ?_⟩
  intro f b
  simp only [FunctionSelector.Scan, FunctionSelector.scanBody]
  split
  next h => simp [Except.map, h]
  next h => simp [Except.map, h]

/-- C3 (code_bug): `FulfilledRunLog` indexes `log.Topics[0]` without a bounds
check and faults (`none`) on a receipt containing a log with an empty topic
list; `GetTopic`'s bounds guard wraps through a signed conversion, so the
index `2^63` (which is at least the topic count) faults instead of returning
the descriptive error; at small out-of-range indices the descriptive error is
returned. -/
theorem c3_topics_indexed_without_bounds_check :
    TxReceipt.FulfilledRunLog ⟨none, none, 0, [logWith 1 [] false]⟩ = none
  ∧ Log.GetTopic (logWith 1 [] false) 9223372036854775808 = none
  ∧ Log.GetTopic (logWith 1 [] false) 0 = some (.error "Log: unable to get topic") := by
  refine ⟨rfl, ?_, rfl⟩
  rfl

/-- C4 (confirmed): `SafeByteSlice` returns an empty result and an error on
any of the four out-of-bounds conditions, and on every other pair returns
exactly `payload[start:end]` (characterized elementwise) with no error. -/
theorem c4_safeByteSlice_spec :
    (∀ (ary : UntrustedBytes) (start end_ : Int),
       (start < 0 ∨ end_ < 0 ∨ start > end_ ∨ end_ > (ary.length : Int)) →
         UntrustedBytes.SafeByteSlice ary start end_ =
           ([], some "out of bounds slice access"))
  ∧ (∀ (ary : UntrustedBytes) (start end_ : Int),
       0 ≤ start → start ≤ end_ → end_ ≤ (ary.length : Int) →
         (UntrustedBytes.SafeByteSlice ary start end_).2 = none
       ∧ ((UntrustedBytes.SafeByteSlice ary start end_).1).length = (end_ - start).toNat
       ∧ (∀ i : Nat, (i : Int) < end_ - start →
           ((UntrustedBytes.SafeByteSlice ary start end_).1)[i]? =
             ary[start.toNat + i]?)) := by
  constructor
  · intro ary start end_ h
    have hc : end_ > (ary.length : Int) ∨ start > end_ ∨ start < 0 ∨ end_ < 0 := by omega
    simp only [UntrustedBytes.SafeByteSlice, if_pos hc]
  · intro ary start end_ h0 h1 h2
    have hc : ¬ (end_ > (ary.length : Int) ∨ start > end_ ∨ start < 0 ∨ end_ < 0) := by
      omega
    simp only [UntrustedBytes.SafeByteSlice, if_neg hc]
    refine ⟨by trivial, ?_, ?_⟩
    · simp only [List.length_take, List.length_drop]
      omega
    · intro i hi
      rw [List.getElem?_take_of_lt (by omega), List.getElem?_drop]

/-- Witness for C4 at `ary = [10, 20, 30]`, `start = 1`, `end = 3` (valid
range) — the hypotheses hold and the slice is `[20, 30]`. -/
theorem c4_safeByteSlice_spec_witness :
    ((0 : Int) ≤ 1 ∧ (1 : Int) ≤ 3 ∧ (3 : Int) ≤ (([10, 20, 30] : UntrustedBytes).length : Int))
  ∧ (UntrustedBytes.SafeByteSlice [10, 20, 30] 1 3).2 = none
  ∧ ((UntrustedBytes.SafeByteSlice [10, 20, 30] 1 3).1).length = ((3 : Int) - 1).toNat := by
  refine ⟨by decide, ?_, ?_⟩
  · exact (c4_safeByteSlice_spec.2 [10, 20, 30] 1 3 (by decide) (by decide) (by decide)).1
  · exact (c4_safeByteSlice_spec.2 [10, 20, 30] 1 3 (by decide) (by decide) (by decide)).2.1

/-- C9 (confirmed): the selector constructors are not total on short input —
`BytesToFunctionSelector` faults (`none`) exactly when the input has fewer
than 4 bytes, hence `HexToFunctionSelector` faults on a hex string decoding
to fewer than 4 bytes (e.g. `"0xabcd"`), while `unmarshalFromString` reports
the same short input as a format error. -/
theorem c9_short_selector_input_faults :
    (∀ b : List Nat, BytesToFunctionSelector b = none ↔ b.length < 4)
  ∧ HexToFunctionSelector ['0', 'x', 'a', 'b', 'c', 'd'] = none
  ∧ (∀ (keccak : List Char → Except GoError (List Nat)) (f : FunctionSelector),
       unmarshalFromString keccak ['0', 'x', 'a', 'b', 'c', 'd'] f =
         some (.error "Function ID must be 4 bytes in length")) := by
  refine ⟨?_, rfl, ?_⟩
  · intro b
    simp only [BytesToFunctionSelector, FunctionSelector.SetBytes]
    split
    · simp_all
    · simp_all
  · intro keccak f
    rfl

/-- A ConfigSet decoder that always succeeds with opaque payload 5. -/
def parseCSok : Log → Except GoError ConfigSet := fun l => .ok { payload := 5, raw := l }

/-- A RoundRequested decoder that always succeeds with the given epoch and
round (digest 0). -/
def parseRRof (e r : Nat) : Log → Except GoError RoundRequested :=
  fun _ => .ok { configDigest := 0, epoch := e, round := r }

/-- An opaque config projection returning 42. -/
def cfeConst : ConfigSet → ContractConfig := fun _ => 42

/-- A tracker tracking address `addr` with the given stored round state and an
empty mailbox. -/
def trackerWith (addr : Address) (lrr : RoundRequested) : OCRContractTracker :=
  { contractAddress := addr, latestRoundRequested := lrr, configsMB := [] }

/-- A broadcast of the given raw log whose consumed-query reports "not yet
consumed". -/
def bcastOf (lg : Log) : Broadcast := { rawLog := lg, wasAlreadyConsumed := .ok false }

/-- C1 (code_bug): `HandleLog` never reads `Removed` — a `removed = true`
ConfigSet log (matching address, decodable) is still delivered to the
mailbox, and a `removed = true` RoundRequested log still replaces the stored
round-request state, exactly as if new data arrived. -/
theorem c1_removed_log_still_advances_state :
    (OCRContractTracker.HandleLog (trackerWith 7 ⟨0, 0, 0⟩) parseCSok (parseRRof 1 1)
        cfeConst (bcastOf (logWith 7 [OCRContractConfigSet] true)) none).state.configsMB
      = [42]
  ∧ (OCRContractTracker.HandleLog (trackerWith 7 ⟨0, 0, 0⟩) parseCSok (parseRRof 1 1)
        cfeConst (bcastOf (logWith 7 [OCRContractLatestRoundRequested] true))
        none).state.latestRoundRequested
      = ⟨0, 1, 1⟩ := by
  exact ⟨rfl, rfl⟩

/-- C5 (confirmed): for any round-requested broadcast passing the consumed,
topic, address and decode guards, the stored state is replaced exactly when
the candidate's epoch and round are both `≥` the stored values, and is
otherwise unchanged; in particular from stored `(epoch 5, round 3)` the
candidate `(5, 2)` is rejected, `(5, 4)` is accepted and `(4, 9)` is
rejected. -/
theorem c5_round_state_update_monotonic :
    (∀ (pcs : Log → Except GoError ConfigSet) (prr : Log → Except GoError RoundRequested)
       (cfe : ConfigSet → ContractConfig) (t : OCRContractTracker) (lb : Broadcast)
       (rest : List Hash) (rr : RoundRequested),
       lb.wasAlreadyConsumed = .ok false →
       lb.rawLog.topics = OCRContractLatestRoundRequested :: rest →
       lb.rawLog.address = t.contractAddress →
       prr lb.rawLog = .ok rr →
       (OCRContractTracker.HandleLog t pcs prr cfe lb none).state.latestRoundRequested =
         (if rr.epoch ≥ t.latestRoundRequested.epoch ∧
             rr.round ≥ t.latestRoundRequested.round
          then rr else t.latestRoundRequested))
  ∧ (OCRContractTracker.HandleLog (trackerWith 7 ⟨0, 5, 3⟩) parseCSok (parseRRof 5 2)
        cfeConst (bcastOf (logWith 7 [OCRContractLatestRoundRequested] false))
        none).state.latestRoundRequested = ⟨0, 5, 3⟩
  ∧ (OCRContractTracker.HandleLog (trackerWith 7 ⟨0, 5, 3⟩) parseCSok (parseRRof 5 4)
        cfeConst (bcastOf (logWith 7 [OCRContractLatestRoundRequested] false))
        none).state.latestRoundRequested = ⟨0, 5, 4⟩
  ∧ (OCRContractTracker.HandleLog (trackerWith 7 ⟨0, 5, 3⟩) parseCSok (parseRRof 4 9)
        cfeConst (bcastOf (logWith 7 [OCRContractLatestRoundRequested] false))
        none).state.latestRoundRequested = ⟨0, 5, 3⟩ := by
  refine ⟨?_, rfl, rfl, rfl⟩
  intro pcs prr cfe t lb rest rr h1 h2 h3 h4
  simp only [OCRContractTracker.HandleLog, h1, h2, h3, h4, Option.isSome_none,
    Bool.false_eq_true, if_false, ne_eq, not_true_eq_false]
  have hne : OCRContractLatestRoundRequested ≠ OCRContractConfigSet := by decide
  simp only [hne, if_false, if_true, not_false_eq_true]
  split
  next hc => simp [And.comm.mp hc]
  next hc =>
    rw [if_neg]
    intro hcontra
    exact hc ⟨hcontra.2, hcontra.1⟩

/-- Witness for C5: a candidate `(6, 4)` against stored `(5, 3)` passes every
guard and replaces the state. -/
theorem c5_round_state_update_monotonic_witness :
    ((bcastOf (logWith 7 [OCRContractLatestRoundRequested] false)).wasAlreadyConsumed
        = .ok false)
  ∧ (OCRContractTracker.HandleLog (trackerWith 7 ⟨0, 5, 3⟩) parseCSok (parseRRof 6 4)
        cfeConst (bcastOf (logWith 7 [OCRContractLatestRoundRequested] false))
        none).state.latestRoundRequested = ⟨0, 6, 4⟩ := by
  refine ⟨rfl, ?_⟩
  have h := c5_round_state_update_monotonic.1 parseCSok (parseRRof 6 4) cfeConst
    (trackerWith 7 ⟨0, 5, 3⟩) (bcastOf (logWith 7 [OCRContractLatestRoundRequested] false))
    [] ⟨0, 6, 4⟩ rfl rfl rfl rfl
  rw [h, if_pos (by decide)]

/-- C6 (confirmed): a broadcast whose consumed-query answers true is a no-op:
whatever the decoders, the prior error, or the tracker state, `HandleLog`
returns with the state unchanged (nothing delivered to the mailbox, round
state intact) and without invoking `MarkConsumed`. -/
theorem c6_already_consumed_is_noop :
    ∀ (pcs : Log → Except GoError ConfigSet) (prr : Log → Except GoError RoundRequested)
      (cfe : ConfigSet → ContractConfig) (t : OCRContractTracker) (lb : Broadcast)
      (err : Option GoError),
      lb.wasAlreadyConsumed = .ok true →
      OCRContractTracker.HandleLog t pcs prr cfe lb err = ⟨t, false⟩ := by
  intro pcs prr cfe t lb err h
  cases err with
  | some e => simp [OCRContractTracker.HandleLog]
  | none => simp [OCRContractTracker.HandleLog, h]

/-- A broadcast of the given raw log that the consumed-query reports as
already consumed. -/
def bcastConsumed (lg : Log) : Broadcast :=
  { rawLog := lg, wasAlreadyConsumed := .ok true }

/-- Witness for C6: a concrete already-consumed ConfigSet broadcast leaves a
concrete tracker unchanged. -/
theorem c6_already_consumed_is_noop_witness :
    ((bcastConsumed (logWith 7 [OCRContractConfigSet] false)).wasAlreadyConsumed = .ok true)
  ∧ OCRContractTracker.HandleLog (trackerWith 7 ⟨0, 5, 3⟩) parseCSok (parseRRof 1 1)
      cfeConst (bcastConsumed (logWith 7 [OCRContractConfigSet] false)) none
      = ⟨trackerWith 7 ⟨0, 5, 3⟩, false⟩ := by
  exact ⟨rfl, c6_already_consumed_is_noop parseCSok (parseRRof 1 1) cfeConst
    (trackerWith 7 ⟨0, 5, 3⟩) (bcastConsumed (logWith 7 [OCRContractConfigSet] false))
    none rfl⟩

/-- C10 (confirmed): consume-marking is asymmetric — a prior-stage error, a
topicless log, or an undecodable ConfigSet payload each make `HandleLog`
return before `MarkConsumed` (and without touching the state), while a log
whose first topic is unrecognized falls through the dispatch and is marked
consumed (state also untouched). -/
theorem c10_consume_marking_asymmetric :
    (∀ (pcs : Log → Except GoError ConfigSet) (prr : Log → Except GoError RoundRequested)
       (cfe : ConfigSet → ContractConfig) (t : OCRContractTracker) (lb : Broadcast)
       (e : GoError),
       OCRContractTracker.HandleLog t pcs prr cfe lb (some e) = ⟨t, false⟩)
  ∧ (∀ (pcs : Log → Except GoError ConfigSet) (prr : Log → Except GoError RoundRequested)
       (cfe : ConfigSet → ContractConfig) (t : OCRContractTracker) (lb : Broadcast),
       lb.rawLog.topics = [] →
       OCRContractTracker.HandleLog t pcs prr cfe lb none = ⟨t, false⟩)
  ∧ (∀ (pcs : Log → Except GoError ConfigSet) (prr : Log → Except GoError RoundRequested)
       (cfe : ConfigSet → ContractConfig) (t : OCRContractTracker) (lb : Broadcast)
       (rest : List Hash) (e : GoError),
       lb.wasAlreadyConsumed = .ok false →
       lb.rawLog.topics = OCRContractConfigSet :: rest →
       lb.rawLog.address = t.contractAddress →
       pcs lb.rawLog = .error e →
       OCRContractTracker.HandleLog t pcs prr cfe lb none = ⟨t, false⟩)
  ∧ (∀ (pcs : Log → Except GoError ConfigSet) (prr : Log → Except GoError RoundRequested)
       (cfe : ConfigSet → ContractConfig) (t : OCRContractTracker) (lb : Broadcast)
       (topic0 : Hash) (rest : List Hash),
       lb.wasAlreadyConsumed = .ok false →
       lb.rawLog.topics = topic0 :: rest →
       topic0 ≠ OCRContractConfigSet →
       topic0 ≠ OCRContractLatestRoundRequested →
       OCRContractTracker.HandleLog t pcs prr cfe lb none = ⟨t, true⟩) := by
  refine ⟨?_, ?_, ?_, ?_⟩
  · intro pcs prr cfe t lb e
    simp [OCRContractTracker.HandleLog]
  · intro pcs prr cfe t lb h
    rcases hw : lb.wasAlreadyConsumed with e | b
    · simp [OCRContractTracker.HandleLog, hw]
    · cases b <;> simp [OCRContractTracker.HandleLog, hw, h]
  · intro pcs prr cfe t lb rest e h1 h2 h3 h4
    simp [OCRContractTracker.HandleLog, h1, h2, h3, h4]
  · intro pcs prr cfe t lb topic0 rest h1 h2 h3 h4
    simp [OCRContractTracker.HandleLog, h1, h2, h3, h4]

/-- Witness for C10: a not-yet-consumed log with the single unrecognized topic
555 is marked consumed with the tracker unchanged. -/
theorem c10_consume_marking_asymmetric_witness :
    ((bcastOf (logWith 7 [555] false)).wasAlreadyConsumed = .ok false)
  ∧ ((bcastOf (logWith 7 [555] false)).rawLog.topics = 555 :: [])
  ∧ OCRContractTracker.HandleLog (trackerWith 7 ⟨0, 5, 3⟩) parseCSok (parseRRof 1 1)
      cfeConst (bcastOf (logWith 7 [555] false)) none = ⟨trackerWith 7 ⟨0, 5, 3⟩, true⟩ := by
  exact ⟨rfl, rfl, c10_consume_marking_asymmetric.2.2.2 parseCSok (parseRRof 1 1) cfeConst
    (trackerWith 7 ⟨0, 5, 3⟩) (bcastOf (logWith 7 [555] false)) 555 [] rfl rfl
    (by decide) (by decide)⟩

/-- C8 counterexample: the claim "the filter query's from-block is exactly
`sinceBlock` for every `sinceBlock`" fails at `sinceBlock = 2^63`, where the
`uint64 → int64` conversion wraps and the query's from-block is negative. -/
theorem c8_counterexample_fromBlock_wraps :
    ((makeConfigFilterQuery 0 9223372036854775808).fromBlock
      == ((9223372036854775808 : Nat) : Int)) = false
  ∧ (makeConfigFilterQuery 0 9223372036854775808).fromBlock = -9223372036854775808 := by
  exact ⟨by decide, by decide⟩

/-- C8 as amended (corrected): for every `sinceBlock` below `2^63` the issued
filter query has from- and to-block exactly `sinceBlock` and is restricted to
the tracked contract address and the ConfigSet topic; an empty query result
yields the reported "no logs" error rather than a zero config; and when
results exist, the last log is decoded and its address checked against the
tracked contract, a mismatch yielding an error. -/
theorem c8_configFromLogs_spec :
    (∀ (addr : Address) (b : Nat), b < 9223372036854775808 →
       makeConfigFilterQuery addr b =
         { fromBlock := (b : Int), toBlock := (b : Int), addresses := [addr],
           topics := [[OCRContractConfigSet]] })
  ∧ (∀ (fl : FilterQuery → Except GoError (List Log))
       (pcs : Log → Except GoError ConfigSet) (cfe : ConfigSet → ContractConfig)
       (addr : Address) (b : Nat),
       fl (makeConfigFilterQuery addr b) = .ok [] →
       ConfigFromLogs fl pcs cfe addr b = .error "ConfigFromLogs: OCRContract has no logs")
  ∧ (∀ (fl : FilterQuery → Except GoError (List Log))
       (pcs : Log → Except GoError ConfigSet) (cfe : ConfigSet → ContractConfig)
       (addr : Address) (b : Nat) (logs : List Log) (hne : logs ≠ []) (cs : ConfigSet),
       fl (makeConfigFilterQuery addr b) = .ok logs →
       pcs (logs.getLast hne) = .ok cs →
       (logs.getLast hne).address ≠ addr →
       ConfigFromLogs fl pcs cfe addr b =
         .error "log address does not match configured contract address") := by
  refine ⟨?_, ?_, ?_⟩
  · intro addr b hb
    have : goInt64OfUInt64 b = (b : Int) := by
      simp only [goInt64OfUInt64]
      rw [Nat.mod_eq_of_lt (by omega)]
      rw [if_pos hb]
    simp [makeConfigFilterQuery, this]
  · intro fl pcs cfe addr b h
    simp [ConfigFromLogs, h]
  · intro fl pcs cfe addr b logs hne cs h1 h2 h3
    simp only [ConfigFromLogs, h1]
    rw [dif_neg hne]
    simp [h2, h3]

/-- Witness for C8: with an RPC client returning one log at a foreign address,
every hypothesis holds and `ConfigFromLogs` reports the mismatch error. -/
theorem c8_configFromLogs_spec_witness :
    ((7 : Nat) < 9223372036854775808
      ∧ makeConfigFilterQuery 9 7 =
          { fromBlock := (7 : Int), toBlock := (7 : Int), addresses := [9],
            topics := [[OCRContractConfigSet]] })
  ∧ ConfigFromLogs (fun _ => .ok [logWith 8 [OCRContractConfigSet] false]) parseCSok
      cfeConst 9 7 = .error "log address does not match configured contract address" := by
  constructor
  · exact ⟨by decide, c8_configFromLogs_spec.1 9 7 (by decide)⟩
  · exact c8_configFromLogs_spec.2.2 (fun _ => .ok [logWith 8 [OCRContractConfigSet] false])
      parseCSok cfeConst 9 7 [logWith 8 [OCRContractConfigSet] false] (by simp)
      { payload := 5, raw := logWith 8 [OCRContractConfigSet] false } rfl rfl (by decide)

/-- C7 (confirmed): `Copy` yields a log equal to the original in every field
— scalar fields identical, topic sequence and payload denoting the same
contents — whose topic and data buffers are fresh (distinct from the
original's references), so that overwriting a buffer of the copy never
changes what the original denotes and vice versa. -/
theorem c7_copy_is_deep (h : Heap) (lg : LogRef) (hwf : lg.wfIn h = true) :
    ((lg.Copy h).1.address = lg.address ∧ (lg.Copy h).1.blockNumber = lg.blockNumber ∧
     (lg.Copy h).1.txHash = lg.txHash ∧ (lg.Copy h).1.txIndex = lg.txIndex ∧
     (lg.Copy h).1.blockHash = lg.blockHash ∧ (lg.Copy h).1.index = lg.index ∧
     (lg.Copy h).1.removed = lg.removed)
  ∧ ((lg.Copy h).1.derefTopics (lg.Copy h).2 = lg.derefTopics (lg.Copy h).2
     ∧ (lg.Copy h).1.derefData (lg.Copy h).2 = lg.derefData (lg.Copy h).2)
  ∧ ((∀ r rc, lg.topics = some r → (lg.Copy h).1.topics = some rc → r ≠ rc)
     ∧ (∀ r rc, lg.data = some r → (lg.Copy h).1.data = some rc → r ≠ rc))
  ∧ ((∀ rc buf, (lg.Copy h).1.topics = some rc →
        lg.derefTopics (Heap.writeTopics (lg.Copy h).2 rc buf) = lg.derefTopics (lg.Copy h).2)
   ∧ (∀ rc buf, (lg.Copy h).1.data = some rc →
        lg.derefData (Heap.writeData (lg.Copy h).2 rc buf) = lg.derefData (lg.Copy h).2)
   ∧ (∀ r buf, lg.topics = some r →
        (lg.Copy h).1.derefTopics (Heap.writeTopics (lg.Copy h).2 r buf)
          = (lg.Copy h).1.derefTopics (lg.Copy h).2)
   ∧ (∀ r buf, lg.data = some r →
        (lg.Copy h).1.derefData (Heap.writeData (lg.Copy h).2 r buf)
          = (lg.Copy h).1.derefData (lg.Copy h).2)) := by
  rcases ht : lg.topics with _ | rt <;> rcases hd : lg.data with _ | rd
  · simp [LogRef.Copy, LogRef.derefTopics, LogRef.derefData, ht, hd]
  · have hrd : rd < h.next := by
      simpa [LogRef.wfIn, ht, hd] using hwf
    simp [LogRef.Copy, Heap.allocData, LogRef.derefTopics, LogRef.derefData,
      Heap.writeTopics, Heap.writeData, ht, hd, Nat.ne_of_lt hrd,
      Ne.symm (Nat.ne_of_lt hrd)]
    constructor <;> intros <;> omega
  · have hrt : rt < h.next := by
      simpa [LogRef.wfIn, ht, hd] using hwf
    simp [LogRef.Copy, Heap.allocTopics, LogRef.derefTopics, LogRef.derefData,
      Heap.writeTopics, Heap.writeData, ht, hd, Nat.ne_of_lt hrt,
      Ne.symm (Nat.ne_of_lt hrt)]
    constructor <;> intros <;> omega
  · have hwf' : rt < h.next ∧ rd < h.next := by
      simpa [LogRef.wfIn, ht, hd] using hwf
    obtain ⟨hrt, hrd⟩ := hwf'
    simp [LogRef.Copy, Heap.allocTopics, Heap.allocData, LogRef.derefTopics,
      LogRef.derefData, Heap.writeTopics, Heap.writeData, ht, hd,
      Nat.ne_of_lt hrt, Ne.symm (Nat.ne_of_lt hrt),
      (by omega : rd ≠ h.next + 1), (by omega : h.next + 1 ≠ rd)]
    refine ⟨by omega, ?_, ?_, ?_, ?_⟩ <;> intros <;> omega

/-- A concrete two-buffer heap for exercising the copy theorem. -/
def heap0 : Heap := { topicMem := fun _ => [5], dataMem := fun _ => [9], next := 2 }

/-- A concrete log whose topics live in buffer 0 and payload in buffer 1. -/
def logRef0 : LogRef :=
  { address := 1, topics := some 0, data := some 1, blockNumber := 0, txHash := 0,
    txIndex := 0, blockHash := 0, index := 0, removed := false }

/-- Witness for C7: `logRef0` is well-formed in `heap0` and its copy denotes
the same topic sequence and payload. -/
theorem c7_copy_is_deep_witness :
    (logRef0.wfIn heap0 = true)
  ∧ (logRef0.Copy heap0).1.derefTopics (logRef0.Copy heap0).2
      = logRef0.derefTopics (logRef0.Copy heap0).2
  ∧ (logRef0.Copy heap0).1.derefData (logRef0.Copy heap0).2
      = logRef0.derefData (logRef0.Copy heap0).2 := by
  refine ⟨rfl, ?_, ?_⟩
  · exact (c7_copy_is_deep heap0 logRef0 rfl).2.1.1
  · exact (c7_copy_is_deep heap0 logRef0 rfl).2.1.2
